import Mathlib

/-!
Verification of the Promptious prompt-optimizer extension.

The development shallowly embeds the logic of `src/extension.ts` (axios-based
revision) and the alternate fetch-based revision of the extension (the
`analyzePromptType` classifier, `optimizePrompt` flow): JS strings become Lean
`String`, JS arrays become `List`, `undefined`-able values become `Option`,
and the asynchronous control flow of one optimization invocation becomes a
pure function from the environment's outcome (configuration, network result)
to the resulting ledger state and presented message.
-/

namespace Promptious

/-- JS `String.prototype.includes`: `t` occurs as a contiguous substring of `s`.
Implemented by scanning, as a computable Bool. -/
def substringAt (t : List Char) : List Char → Bool
  | [] => t.isEmpty
  | c :: rest => t.isPrefixOf (c :: rest) || substringAt t rest

/-- JS `s.includes(t)`. -/
def jsIncludes (s t : String) : Bool := substringAt t.data s.data

/-- JS `s.startsWith(t)`. -/
def jsStartsWith (s t : String) : Bool := t.data.isPrefixOf s.data

/-- JS `s.trim()` on the ASCII replies at issue: drop whitespace from both
ends. (Kernel-reducible, unlike `String.trim`.) -/
def jsTrim (s : String) : String :=
  ⟨((s.data.dropWhile Char.isWhitespace).reverse.dropWhile Char.isWhitespace).reverse⟩

/-- JS `s.toLowerCase()` on the ASCII prompts at issue: lower-case each
character. (Kernel-reducible, unlike `String.toLower`.) -/
def jsToLower (s : String) : String := ⟨s.data.map Char.toLower⟩

/-- JS truthiness of a possibly-`undefined` string: falsy iff absent or empty. -/
def truthyStr : Option String → Bool
  | none => false
  | some s => !(s == "")

/-! ## Prompt Classifier (`analyzePromptType`, fetch-based revision lines 107–151) -/

/-- The classifier's result triple. -/
structure PromptAnalysis where
  type : String
  complexity : String
  techniques : List String
  deriving Repr, DecidableEq

/-- Type-detection block of `analyzePromptType`: ordered keyword groups over
the lower-cased prompt, first match wins, default `"general"`. -/
def detectType (lowerPrompt : String) : String :=
  if jsIncludes lowerPrompt "code" || jsIncludes lowerPrompt "program" || jsIncludes lowerPrompt "function" then
    "coding"
  else if jsIncludes lowerPrompt "explain" || jsIncludes lowerPrompt "what is" || jsIncludes lowerPrompt "how does" then
    "explanation"
  else if jsIncludes lowerPrompt "write" || jsIncludes lowerPrompt "create" || jsIncludes lowerPrompt "generate" then
    "creative"
  else if jsIncludes lowerPrompt "analyze" || jsIncludes lowerPrompt "compare" || jsIncludes lowerPrompt "evaluate" then
    "analysis"
  else if jsIncludes lowerPrompt "translate" || jsIncludes lowerPrompt "convert" then
    "transformation"
  else "general"

/-- Complexity-detection block of `analyzePromptType`. `prompt.length` in JS
counts UTF-16 units; the embedding uses `String.length`, which agrees on the
ASCII prompts at issue. -/
def detectComplexity (promptLength : Nat) (lowerPrompt : String) : String :=
  if promptLength > 200 || jsIncludes lowerPrompt "step" || jsIncludes lowerPrompt "process" then
    "complex"
  else if promptLength > 100 then "medium"
  else "simple"

/-- Technique-selection block of `analyzePromptType`. -/
def selectTechniquesFor (type complexity : String) : List String :=
  let techniques := ["zero-shot", "role-definition"]
  let techniques := if complexity == "complex" then techniques ++ ["chain-of-thought"] else techniques
  let techniques := if type == "coding" || type == "creative" then techniques ++ ["few-shot"] else techniques
  let techniques := if type == "analysis" || type == "explanation" then techniques ++ ["meta-prompting"] else techniques
  let techniques :=
    if complexity == "complex" && (type == "analysis" || type == "explanation") then
      techniques ++ ["self-consistency"]
    else techniques
  techniques

/-- `analyzePromptType` of the fetch-based revision: derives the type,
complexity and technique list from the prompt. -/
def analyzePromptType (prompt : String) : PromptAnalysis :=
  let lowerPrompt := jsToLower prompt
  let type := detectType lowerPrompt
  let complexity := detectComplexity prompt.length lowerPrompt
  { type := type, complexity := complexity, techniques := selectTechniquesFor type complexity }

/-! ## History Ledger (`src/extension.ts`) -/

/-- `MAX_HISTORY_SIZE` (line 33). -/
def MAX_HISTORY_SIZE : Nat := 100

/-- One entry of the in-memory optimization history (`OptimizationHistory`
interface, lines 24–30). `Date` becomes a `Nat` instant; the optional numeric
score becomes `Option ℚ` (the code only ever stores exact `0`). -/
structure OptimizationHistory where
  original : String
  optimized : String
  techniques : List String
  timestamp : Nat
  score : Option ℚ
  deriving Repr, DecidableEq

/-- Lines 316–327 of `optimizeText`: `history.push(record)` followed by
`if (history.length > MAX_HISTORY_SIZE) history.shift()`. -/
def ledgerAppend (history : List OptimizationHistory) (record : OptimizationHistory) :
    List OptimizationHistory :=
  let pushed := history ++ [record]
  if pushed.length > MAX_HISTORY_SIZE then pushed.drop 1 else pushed

/-- `clearOptimizationHistory` (lines 444–455): the ledger is emptied only
when the user answers the confirmation dialog with `"Yes"`. -/
def clearHistory (confirmed : Option String) (history : List OptimizationHistory) :
    List OptimizationHistory :=
  if confirmed == some "Yes" then [] else history

/-! ## Response Interpreter (`optimizeText` lines 291–312) -/

/-- Result of attempting JS `JSON.parse` on a reply and reading its
`optimized_prompt` field: `none` when parsing throws; `some none` when the
text parses but has no string `optimized_prompt` field; `some (some s)` when
the field is the string `s`. `JSON.parse` is a host primitive, so the
embedding abstracts it as a parameter supplied per run. -/
abbrev JsonParseFn := String → Option (Option String)

/-- Lines 292–304: trim the completion content and, when it looks like the
JSON envelope (starts with a brace and mentions `optimized_prompt`), try to
extract the field, falling back to the whole trimmed text when parsing throws
or the field is falsy (`jsonResponse.optimized_prompt || optimizedPrompt`). -/
def interpretResponse (jsonParse : JsonParseFn) (content : String) : String :=
  let optimizedPrompt := jsTrim content
  if jsStartsWith optimizedPrompt "\x7b" && jsIncludes optimizedPrompt "optimized_prompt" then
    match jsonParse optimizedPrompt with
    | some (some s) => if s == "" then optimizedPrompt else s
    | some none => optimizedPrompt
    | none => optimizedPrompt
  else
    optimizedPrompt

/-- The `OptimizationResponse` value assembled at lines 306–312: constant
`success`, empty `applied_techniques`, empty explanation, score `0`. -/
structure OptimizationResponse where
  success : Bool
  optimized_prompt : Option String
  applied_techniques : List (String × String)
  explanation : Option String
  improvement_score : Option ℚ
  deriving Repr, DecidableEq

/-- Lines 306–312 of `optimizeText`. -/
def mkOptimizationResult (optimizedPrompt : String) : OptimizationResponse :=
  { success := true
    optimized_prompt := some optimizedPrompt
    applied_techniques := []
    explanation := some ""
    improvement_score := some 0 }

/-! ## Remote Call Adapter error taxonomy -/

/-- The fields of an axios rejection inspected by the catch block of
`optimizeText` (lines 338–360): `error.code`, `error.response?.status`,
`error.response?.data?.error` (collapsed to its message text, the
`error.message || error` read of line 355), and `error.message`. -/
structure AxiosError where
  code : Option String
  status : Option Nat
  dataError : Option String
  message : Option String
  deriving Repr, DecidableEq

/-- The detail appended to the base message by the if/else chain of lines
344–360. -/
def axiosErrorDetail (e : AxiosError) : String :=
  if e.code == some "ECONNABORTED" || e.code == some "ETIMEDOUT" then
    "Request timed out. Please check your internet connection and try again."
  else if e.code == some "ENOTFOUND" || e.code == some "ECONNREFUSED" then
    "Cannot connect to OpenAI API. Please check your internet connection."
  else if e.status == some 401 then
    "Authentication failed. Please check your OpenAI API key."
  else if e.status == some 429 then
    "Rate limit exceeded. Please try again later or upgrade your OpenAI plan."
  else if e.status == some 402 then
    "Payment required. Please add credits to your OpenAI account."
  else
    match e.dataError with
    | some m => m
    | none =>
      match e.message with
      | some m => m
      | none => "Please check your OpenAI API key and try again."

/-- The full user-facing error message built by the catch block:
`errorMessage` starts as the base text and the chain appends the detail. -/
def mapAxiosError (e : AxiosError) : String :=
  "Failed to optimize prompt. " ++ axiosErrorDetail e

/-- Whether an axios rejection carries one of the four transport-failure
codes the chain checks before looking at an HTTP status. An error that holds
an HTTP response reached the server, so it carries none of these. -/
def hasTransportCode (e : AxiosError) : Bool :=
  e.code == some "ECONNABORTED" || e.code == some "ETIMEDOUT" ||
    e.code == some "ENOTFOUND" || e.code == some "ECONNREFUSED"

/-- The `!response.ok` branch of the fetch-based `optimizePrompt` (lines
239–248): the message of the `Error` thrown for a non-2xx HTTP status.
`dataErrorMsg` is `errorData.error?.message`; `statusText` is
`response.statusText` (the `||` falls through on a missing or empty
message). -/
def mapFetchHttpError (status : Nat) (dataErrorMsg : Option String) (statusText : String) :
    String :=
  if status == 401 then
    "Invalid API key. Please check your OpenAI API key in settings."
  else if status == 429 then
    "Rate limit exceeded. Please try again later."
  else
    "OpenAI API error: " ++
      (match dataErrorMsg with
       | some m => if m == "" then statusText else m
       | none => statusText)

/-! ## One optimization invocation as a pure run function -/

/-- Outcome the network produces for the axios call of `optimizeText`:
either the promise resolves with `response.data.choices[0].message.content`,
or it rejects with an `AxiosError`. -/
inductive NetResult where
  | ok (content : String)
  | err (e : AxiosError)

/-- What one invocation presents to the user: an error message, or the
optimized result (with whether it was auto-copied). -/
inductive Presented where
  | errorMsg (msg : String)
  | result (optimized : String) (copied : Bool)
  deriving Repr, DecidableEq

/-- The missing-credential message of `optimizeText` (lines 243–244). -/
def missingKeyMsg : String := "🔑 OpenAI API key not configured. Please set it in settings."

/-- The state after one invocation: ledger contents, what was presented, and
whether the HTTP request was issued at all. -/
structure RunOutcome where
  history : List OptimizationHistory
  presented : Presented
  requestSent : Bool

/-- One invocation of `optimizeText(text, history)` (lines 223–367), as a
pure function of the environment: the configured API key, the outcome `net`
the network would produce if called, the `JSON.parse` oracle, and the current
time. Mirrors the control flow: missing key short-circuits; a rejected
request maps through the catch block; a resolved request is interpreted, and
an empty result throws (`No optimized prompt received from OpenAI`), which
the same catch block turns into a message. -/
def optimizeText (apiKey : Option String) (jsonParse : JsonParseFn) (net : NetResult)
    (now : Nat) (autoCopy : Bool) (text : String) (history : List OptimizationHistory) :
    RunOutcome :=
  if !truthyStr apiKey then
    { history := history, presented := .errorMsg missingKeyMsg, requestSent := false }
  else
    match net with
    | .err e =>
      { history := history, presented := .errorMsg (mapAxiosError e), requestSent := true }
    | .ok content =>
      let optimizedPrompt := interpretResponse jsonParse content
      let optimizationResult := mkOptimizationResult optimizedPrompt
      if truthyStr optimizationResult.optimized_prompt then
        { history := ledgerAppend history
            { original := text
              optimized := optimizedPrompt
              techniques := []
              timestamp := now
              score := optimizationResult.improvement_score }
          presented := .result optimizedPrompt autoCopy
          requestSent := true }
      else
        { history := history
          presented := .errorMsg (mapAxiosError
            { code := none, status := none, dataError := none
              message := some "No optimized prompt received from OpenAI" })
          requestSent := true }

/-- Outcome the network produces for the `fetch` call of the fetch-based
revision: the response is 2xx with completion content, or non-2xx. -/
inductive FetchNet where
  | ok (content : String)
  | httpErr (status : Nat) (dataErrorMsg : Option String) (statusText : String)
  deriving Repr, DecidableEq

/-- The missing-credential message of the fetch-based `optimizePrompt`
(lines 194–203). -/
def fetchMissingKeyMsg : String := "OpenAI API key not configured. Please set it in settings."

/-- Result of one fetch-based `optimizePrompt` invocation. -/
structure FetchRunOutcome where
  presented : Presented
  requestSent : Bool
  deriving Repr, DecidableEq

/-- One invocation of the fetch-based `optimizePrompt(originalPrompt)`
(lines 185–277): missing key short-circuits before the fetch; a non-2xx
response throws, and the catch block prepends `Error optimizing prompt: `;
a 2xx response presents the trimmed completion content. -/
def optimizePrompt (apiKey : Option String) (net : FetchNet) (autoCopy : Bool)
    (originalPrompt : String) : FetchRunOutcome :=
  if !truthyStr apiKey then
    { presented := .errorMsg fetchMissingKeyMsg, requestSent := false }
  else
    match net with
    | .httpErr status dataErrorMsg statusText =>
      { presented := .errorMsg
          ("Error optimizing prompt: " ++ mapFetchHttpError status dataErrorMsg statusText)
        requestSent := true }
    | .ok content =>
      { presented := .result (jsTrim content) autoCopy, requestSent := true }

/-! ## Ledger runs and the history view -/

/-- An operation touching the ledger: one optimization invocation, or a
clear-history command with the user's dialog answer. -/
inductive LedgerOp where
  | optimize (apiKey : Option String) (jsonParse : JsonParseFn) (net : NetResult)
      (now : Nat) (autoCopy : Bool) (text : String)
  | clear (confirmed : Option String)

/-- Apply one operation to the ledger. -/
def applyOp (history : List OptimizationHistory) : LedgerOp → List OptimizationHistory
  | .optimize apiKey jsonParse net now autoCopy text =>
    (optimizeText apiKey jsonParse net now autoCopy text history).history
  | .clear confirmed => clearHistory confirmed history

/-- The ledger after a sequence of operations, starting from the empty
module-level list. -/
def runOps (ops : List LedgerOp) : List OptimizationHistory :=
  ops.foldl applyOp []

/-- JS truthiness of the optional numeric `score` field: falsy iff absent
or `0`. -/
def truthyNum : Option ℚ → Bool
  | none => false
  | some q => !(q == 0)

/-- Line 401 of `showOptimizationHistory`:
`item.score ? (item.score * 100).toFixed(1) : 'N/A'`. `toFixed1` abstracts
the host's number formatting. -/
def renderScore (toFixed1 : ℚ → String) (score : Option ℚ) : String :=
  if truthyNum score then toFixed1 ((score.getD 0) * 100) else "N/A"

/-! ## `selectOptimalTechniques` (`src/extension.ts` lines 470–682) -/

/-- The `{name, description}` shape of entries pushed into `selected`. -/
structure Technique where
  name : String
  description : String
  deriving Repr, DecidableEq

/-- An entry of the `allTechniques` table (lines 472–575): name, description,
trigger keywords and minimum length. The keywords and `minLength` fields are
carried by the table but never read by `selectOptimalTechniques`. -/
structure CatalogTechnique where
  name : String
  description : String
  keywords : List String
  minLength : Nat
  deriving Repr, DecidableEq

/-- The static `allTechniques` table. -/
def allTechniques : List CatalogTechnique :=
  [ { name := "Zero-shot Prompting"
      description := "Provide clear, direct instructions without examples"
      keywords := ["simple", "direct", "basic"], minLength := 0 }
  , { name := "Few-shot Prompting"
      description := "Include 2-3 examples to guide the model"
      keywords := ["example", "similar", "like this"], minLength := 20 }
  , { name := "Chain-of-Thought Prompting"
      description := "Break complex tasks into step-by-step reasoning"
      keywords := ["think", "reason", "step", "process", "analyze"], minLength := 30 }
  , { name := "Meta Prompting"
      description := "Ask the model to think about how to approach the task"
      keywords := ["approach", "strategy", "method", "how to"], minLength := 40 }
  , { name := "Self-Consistency"
      description := "Generate multiple responses and select the best one"
      keywords := ["multiple", "compare", "best", "verify"], minLength := 50 }
  , { name := "Generate Knowledge Prompting"
      description := "Generate relevant knowledge before answering"
      keywords := ["knowledge", "background", "context", "research"], minLength := 30 }
  , { name := "Prompt Chaining"
      description := "Break complex tasks into smaller, connected prompts"
      keywords := ["chain", "sequence", "multiple steps", "workflow"], minLength := 60 }
  , { name := "Tree of Thoughts"
      description := "Explore multiple reasoning paths and select the best"
      keywords := ["explore", "paths", "options", "alternatives"], minLength := 50 }
  , { name := "Retrieval Augmented Generation"
      description := "Use external knowledge sources to enhance responses"
      keywords := ["search", "find", "lookup", "reference"], minLength := 40 }
  , { name := "Automatic Reasoning and Tool-use"
      description := "Enable the model to use tools and reason automatically"
      keywords := ["tool", "function", "api", "calculate"], minLength := 30 }
  , { name := "Active-Prompt"
      description := "Dynamically select the most effective prompt examples"
      keywords := ["dynamic", "adaptive", "selective"], minLength := 40 }
  , { name := "Directional Stimulus Prompting"
      description := "Guide the model\x27s attention to specific aspects"
      keywords := ["focus", "emphasize", "highlight", "attention"], minLength := 30 }
  , { name := "Program-Aided Language Models"
      description := "Use programming constructs to structure reasoning"
      keywords := ["code", "program", "algorithm", "logic"], minLength := 40 }
  , { name := "ReAct"
      description := "Combine reasoning and acting in an interleaved manner"
      keywords := ["reason", "act", "interact", "dynamic"], minLength := 50 }
  , { name := "Reflexion"
      description := "Enable the model to reflect on and improve its responses"
      keywords := ["reflect", "improve", "feedback", "iteration"], minLength := 40 }
  , { name := "Multimodal CoT"
      description := "Apply chain-of-thought reasoning to multimodal inputs"
      keywords := ["image", "visual", "multimodal", "picture"], minLength := 30 }
  , { name := "Graph Prompting"
      description := "Structure information as graphs for better reasoning"
      keywords := ["graph", "network", "relationship", "connection"], minLength := 40 }
  ]

/-- `allTechniques[i]` as the `{name, description}` value pushed into
`selected`. -/
def catalogAt (i : Nat) : Technique :=
  match allTechniques.get? i with
  | some t => { name := t.name, description := t.description }
  | none => { name := "", description := "" }

/-- JS regex `\w`: `[A-Za-z0-9_]`. -/
def isWordChar (c : Char) : Bool := c.isAlpha || c.isDigit || c == '_'

/-- Whether the optional character at a regex position is a word character;
the position before the start or past the end of the string counts as
non-word. -/
def wordAt : Option Char → Bool
  | none => false
  | some c => isWordChar c

/-- `\b w \b` matches at the start of `s`, where `prev` is the character
just before `s` in the subject (JS `\b`: the two sides of the boundary
differ in word-character-ness). -/
def boundedHitHere (w : List Char) (prev : Option Char) (s : List Char) : Bool :=
  w.isPrefixOf s
    && (wordAt prev != wordAt w.head?)
    && (wordAt w.getLast? != wordAt (s.drop w.length).head?)

/-- `\b w \b` matches somewhere in `s` (`prev` is the character preceding
`s`'s head in the subject). -/
def boundedHit (w : List Char) (prev : Option Char) : List Char → Bool
  | [] => boundedHitHere w prev []
  | c :: rest => boundedHitHere w prev (c :: rest) || boundedHit w (some c) rest

/-- JS `/\b(w₁|…|wₙ)\b/i.test(s)`: some alternative occurs in `s` with word
boundaries on both sides, case-insensitively. -/
def regexWordTest (words : List String) (s : String) : Bool :=
  words.any fun w => boundedHit (jsToLower w).data none (jsToLower s).data

/-- Line 581: `hasCodeKeywords`. -/
def hasCodeKeywords (p : String) : Bool :=
  regexWordTest
    ["code", "function", "class", "method", "algorithm", "program", "script", "api",
     "database", "sql", "html", "css", "javascript", "python", "java", "c++", "react",
     "node"] p

/-- Line 582: `hasVisualKeywords`. -/
def hasVisualKeywords (p : String) : Bool :=
  regexWordTest
    ["image", "picture", "photo", "visual", "draw", "design", "chart", "graph", "diagram"] p

/-- Line 583: `hasAnalysisKeywords`. -/
def hasAnalysisKeywords (p : String) : Bool :=
  regexWordTest
    ["analyze", "compare", "evaluate", "assess", "review", "examine", "study"] p

/-- Line 584: `hasCreativeKeywords`. -/
def hasCreativeKeywords (p : String) : Bool :=
  regexWordTest
    ["create", "write", "generate", "design", "invent", "imagine", "brainstorm"] p

/-- The selection phase of `selectOptimalTechniques` (lines 586–662): the
`selected` array after all conditional pushes, before deduplication. -/
def rawSelectedTechniques (originalPrompt : String) : List Technique :=
  let promptLower := jsToLower originalPrompt
  let promptLength := originalPrompt.length
  let hasQuestion := jsIncludes originalPrompt "?"
  let selected := [catalogAt 0]
  let selected :=
    if !(jsIncludes promptLower "you are") && !(jsIncludes promptLower "act as") then
      selected ++ [{ name := "Role Definition"
                     description := "Define the AI\x27s role and expertise clearly" }]
    else selected
  let selected :=
    if promptLength < 30 then
      selected ++ [{ name := "Context Setting"
                     description := "Provide relevant background and context" }]
    else selected
  let selected :=
    if promptLength > 50 || hasQuestion || hasAnalysisKeywords originalPrompt then
      selected ++ [catalogAt 2]
    else selected
  let selected :=
    if hasAnalysisKeywords originalPrompt || jsIncludes promptLower "example" ||
        jsIncludes promptLower "similar" then
      selected ++ [catalogAt 1]
    else selected
  let selected :=
    if promptLength > 60 &&
        (hasAnalysisKeywords originalPrompt || jsIncludes promptLower "approach") then
      selected ++ [catalogAt 3]
    else selected
  let selected :=
    if hasCodeKeywords originalPrompt then selected ++ [catalogAt 12] else selected
  let selected :=
    if hasVisualKeywords originalPrompt then selected ++ [catalogAt 15] else selected
  let selected :=
    if jsIncludes promptLower "research" || jsIncludes promptLower "find" ||
        jsIncludes promptLower "lookup" then
      selected ++ [catalogAt 5]
    else selected
  let selected :=
    if promptLength > 80 &&
        (hasAnalysisKeywords originalPrompt || jsIncludes promptLower "best" ||
          jsIncludes promptLower "compare") then
      selected ++ [catalogAt 4]
    else selected
  let selected :=
    if jsIncludes promptLower "interact" || jsIncludes promptLower "dynamic" ||
        hasCodeKeywords originalPrompt then
      selected ++ [catalogAt 13]
    else selected
  let selected :=
    if hasCreativeKeywords originalPrompt then
      selected ++ [{ name := "Output Formatting"
                     description := "Specify desired output format and structure" }]
    else selected
  let selected :=
    if promptLength > 100 then
      selected ++ [{ name := "Constraint Specification"
                     description := "Add clear constraints and requirements" }]
    else selected
  selected

/-- Lines 665–667:
`selected.filter((technique, index, self) => index === self.findIndex(t => t.name === technique.name))`,
keeping only the first occurrence of each name. -/
def dedupByName (selected : List Technique) : List Technique :=
  (selected.enum.filter fun p =>
      selected.findIdx? (fun t => t.name == p.2.name) == some p.1).map Prod.snd

/-- The fixed allow-list of the conservative level (lines 672–674). -/
def conservativeAllowList : List String :=
  ["Zero-shot Prompting", "Role Definition", "Context Setting"]

/-- `selectOptimalTechniques` (lines 470–682): select, deduplicate by name,
then apply the optimization level as a post-filter. `availableTechniques` is
accepted and ignored, as in the source. -/
def selectOptimalTechniques (originalPrompt : String) (availableTechniques : List String)
    (optimizationLevel : String) (maxTechniques : Nat) : List Technique :=
  let uniqueSelected := dedupByName (rawSelectedTechniques originalPrompt)
  if optimizationLevel == "conservative" then
    (uniqueSelected.filter fun tech => conservativeAllowList.contains tech.name).take 2
  else if optimizationLevel == "aggressive" then
    uniqueSelected.take maxTechniques
  else
    uniqueSelected.take (min maxTechniques 4)

/-! ## Concrete sample values used by witnesses and counterexamples -/

/-- A concrete record for ledger witnesses. -/
def sampleRecord : OptimizationHistory :=
  { original := "a", optimized := "b", techniques := [], timestamp := 0, score := some 0 }

/-- A well-formed JSON reply whose `optimized_prompt` field is the empty
string. -/
def cexJsonReply : String := "\x7b\"optimized_prompt\":\"\"\x7d"

/-- `JSON.parse` behavior on `cexJsonReply`: it is valid JSON and its
`optimized_prompt` field is `""`. (Elsewhere this oracle reports a parse
failure, which the counterexample never exercises.) -/
def cexJsonParse : JsonParseFn :=
  fun s => if s == cexJsonReply then some (some "") else none

/-! ## Theorems -/

/-- Appending never grows the ledger past the capacity bound. -/
theorem ledgerAppend_length_le {history : List OptimizationHistory}
    (h : history.length ≤ MAX_HISTORY_SIZE) (record : OptimizationHistory) :
    (ledgerAppend history record).length ≤ MAX_HISTORY_SIZE := by
  unfold ledgerAppend
  by_cases hl : (history ++ [record]).length > MAX_HISTORY_SIZE
  · simp only [hl, if_pos]
    simp only [List.length_drop, List.length_append, List.length_singleton]
    omega
  · simp only [hl, if_neg, not_false_eq_true]
    omega

/-- Every ledger reachable by a sequence of appends stays within capacity. -/
theorem foldl_ledgerAppend_length_le (records : List OptimizationHistory) :
    ∀ history : List OptimizationHistory, history.length ≤ MAX_HISTORY_SIZE →
      (records.foldl ledgerAppend history).length ≤ MAX_HISTORY_SIZE := by
  induction records with
  | nil => intro history h; simpa using h
  | cons r rest ih =>
    intro history h
    simpa using ih (ledgerAppend history r) (ledgerAppend_length_le h r)

/- (definitions used by witnesses and counterexamples live above, in the
definitions part of the file) -/

/-- C1: the History Ledger never exceeds its capacity `N = 100`: after any
sequence of successful appends starting from the empty ledger the length is
at most `MAX_HISTORY_SIZE`, and appending to a full ledger evicts exactly the
oldest record, leaving the remaining records in order followed by the new
one. -/
theorem ledger_capacity_and_fifo :
    (∀ records : List OptimizationHistory,
        (records.foldl ledgerAppend []).length ≤ MAX_HISTORY_SIZE) ∧
    (∀ (history : List OptimizationHistory) (record : OptimizationHistory),
        history.length = MAX_HISTORY_SIZE →
          ledgerAppend history record = history.drop 1 ++ [record]) := by
  constructor
  · intro records
    exact foldl_ledgerAppend_length_le records [] (by simp)
  · intro history record h
    unfold ledgerAppend
    have hl : (history ++ [record]).length > MAX_HISTORY_SIZE := by
      simp [h]
    simp only [hl, if_pos]
    rw [List.drop_append_of_le_length (by simp [h, MAX_HISTORY_SIZE])]

/-- Witness for `ledger_capacity_and_fifo` at a concrete full ledger. -/
theorem ledger_capacity_and_fifo_witness :
    ledgerAppend (List.replicate MAX_HISTORY_SIZE sampleRecord) sampleRecord =
      (List.replicate MAX_HISTORY_SIZE sampleRecord).drop 1 ++ [sampleRecord] :=
  ledger_capacity_and_fifo.2 _ sampleRecord (by simp)

/-- Every message produced by the axios catch block starts with the base
text, so its first character is `F`. -/
theorem mapAxiosError_head (e : AxiosError) :
    (mapAxiosError e).data.head? = some 'F' := rfl

/-- The missing-credential message differs from every message the axios
catch block can produce for a failed request. -/
theorem missingKeyMsg_ne_mapAxiosError (e : AxiosError) :
    missingKeyMsg ≠ mapAxiosError e := by
  intro h
  have h2 : (mapAxiosError e).data.head? = some 'F' := mapAxiosError_head e
  rw [← h] at h2
  exact absurd h2 (by decide)

/-- The fetch-based revision's missing-credential message differs from every
message its catch block shows for a failed request. -/
theorem fetchMissingKeyMsg_ne_fetchError (s : String) :
    fetchMissingKeyMsg ≠ "Error optimizing prompt: " ++ s := by
  intro h
  have h2 : (("Error optimizing prompt: " ++ s) : String).data.head? = some 'E' := rfl
  rw [← h] at h2
  exact absurd h2 (by decide)

/-- C2: when the configured API credential is absent or empty, both
revisions short-circuit: no network request is issued, the user is shown the
missing-credential message, and that message is distinct from every message
produced for a request that actually failed (timeouts, DNS failures, HTTP
errors, and all other mapped failures). -/
theorem missing_credential_short_circuits
    (apiKey : Option String) (jsonParse : JsonParseFn) (net : NetResult) (now : Nat)
    (autoCopy : Bool) (text : String) (history : List OptimizationHistory)
    (fnet : FetchNet) (fAutoCopy : Bool) (fPrompt : String)
    (hkey : apiKey = none ∨ apiKey = some "") :
    (optimizeText apiKey jsonParse net now autoCopy text history).requestSent = false ∧
    (optimizeText apiKey jsonParse net now autoCopy text history).presented =
      .errorMsg missingKeyMsg ∧
    (∀ e : AxiosError, missingKeyMsg ≠ mapAxiosError e) ∧
    (optimizePrompt apiKey fnet fAutoCopy fPrompt).requestSent = false ∧
    (optimizePrompt apiKey fnet fAutoCopy fPrompt).presented =
      .errorMsg fetchMissingKeyMsg ∧
    (∀ status dataErrorMsg statusText, fetchMissingKeyMsg ≠
        "Error optimizing prompt: " ++ mapFetchHttpError status dataErrorMsg statusText) := by
  have hfalsy : truthyStr apiKey = false := by
    rcases hkey with h | h <;> simp [h, truthyStr]
  refine ⟨?_, ?_, fun e => missingKeyMsg_ne_mapAxiosError e, ?_, ?_,
    fun _ _ _ => fetchMissingKeyMsg_ne_fetchError _⟩ <;>
    simp [optimizeText, optimizePrompt, hfalsy]

/-- Witness for `missing_credential_short_circuits` with an empty-string
credential and a network that would succeed if it were ever called. -/
theorem missing_credential_short_circuits_witness :
    (optimizeText (some "") (fun _ => none) (.ok "reply") 0 true "text" []).requestSent =
        false ∧
    (optimizeText (some "") (fun _ => none) (.ok "reply") 0 true "text" []).presented =
      .errorMsg missingKeyMsg :=
  have h := missing_credential_short_circuits (some "") (fun _ => none) (.ok "reply") 0 true
    "text" [] (.ok "reply") true "text" (Or.inr rfl)
  ⟨h.1, h.2.1⟩

/-- C3 counterexample: interpretation does not return every reply exactly.
A non-JSON reply carrying surrounding whitespace comes back trimmed, not
verbatim; and a well-formed JSON envelope whose `optimized_prompt` field is
the empty string `X = ""` does not yield `X` — the falsy-field fallback
(`jsonResponse.optimized_prompt || optimizedPrompt`) returns the whole reply
instead. -/
theorem interpret_response_counterexample :
    (interpretResponse cexJsonParse " X " = "X" ∧ (" X " : String) ≠ "X") ∧
    (interpretResponse cexJsonParse cexJsonReply = cexJsonReply ∧ cexJsonReply ≠ "") := by
  decide

/-- C3 (amended): interpretation first trims the reply. A reply that does
not look like the JSON envelope yields the trimmed reply (hence exactly the
reply whenever it has no surrounding whitespace); a JSON-envelope reply
whose parse provides a nonempty `optimized_prompt` string `X` yields exactly
`X`; a JSON parsing failure is never surfaced as an error — interpretation
falls back to the trimmed reply; and the assembled response always carries
an empty applied-techniques list. -/
theorem interpret_response_amended (jsonParse : JsonParseFn) (content : String) :
    (¬((jsStartsWith (jsTrim content) "\x7b" &&
          jsIncludes (jsTrim content) "optimized_prompt") = true) →
        interpretResponse jsonParse content = jsTrim content) ∧
    (∀ X, jsonParse (jsTrim content) = some (some X) → X ≠ "" →
        (jsStartsWith (jsTrim content) "\x7b" &&
          jsIncludes (jsTrim content) "optimized_prompt") = true →
        interpretResponse jsonParse content = X) ∧
    (jsonParse (jsTrim content) = none →
        interpretResponse jsonParse content = jsTrim content) ∧
    (mkOptimizationResult (interpretResponse jsonParse content)).applied_techniques = [] := by
  refine ⟨?_, ?_, ?_, rfl⟩
  · intro h
    simp only [interpretResponse]
    rw [if_neg h]
  · intro X hp hX hc
    simp only [interpretResponse]
    rw [if_pos hc, hp]
    simp [hX]
  · intro hp
    simp only [interpretResponse]
    by_cases hc : (jsStartsWith (jsTrim content) "\x7b" &&
        jsIncludes (jsTrim content) "optimized_prompt") = true
    · rw [if_pos hc, hp]
    · rw [if_neg hc]

/-- Witness for `interpret_response_amended`: a plain reply comes back
trimmed, and a JSON envelope with a nonempty field comes back as that
field. -/
theorem interpret_response_amended_witness :
    interpretResponse (fun _ => none) "hello" = jsTrim "hello" ∧
    interpretResponse
      (fun s => if s == "\x7b\"optimized_prompt\":\"Y\"\x7d" then some (some "Y") else none)
      "\x7b\"optimized_prompt\":\"Y\"\x7d" = "Y" :=
  ⟨(interpret_response_amended (fun _ => none) "hello").1 (by decide),
   (interpret_response_amended
      (fun s => if s == "\x7b\"optimized_prompt\":\"Y\"\x7d" then some (some "Y") else none)
      "\x7b\"optimized_prompt\":\"Y\"\x7d").2.1 "Y" (by decide) (by decide) (by decide)⟩

/-- C4 counterexample: in the fetch-based revision an HTTP 402 response is
not mapped to the payment/quota class. It produces the generic service-error
message — identical in form to any other unrecognized status — rather than
the payment-class message the axios-based adapter uses. -/
theorem http_402_counterexample :
    mapFetchHttpError 402 none "Payment Required" = "OpenAI API error: Payment Required" ∧
    mapFetchHttpError 402 none "Payment Required" ≠
      mapAxiosError { code := none, status := some 402, dataError := none, message := none } ∧
    mapFetchHttpError 402 none "x" = mapFetchHttpError 500 none "x" := by decide

/-- C4 (amended): the error mapping is a deterministic function of the
failure in both revisions. In the axios-based adapter the transport codes
are checked first (`ECONNABORTED`/`ETIMEDOUT` → request-timed-out and
`ENOTFOUND`/`ECONNREFUSED` → cannot-reach-service, unconditionally), and an
error carrying an HTTP response — one that reached the server, hence
carries no transport-failure code — maps 401 → authentication-failed,
429 → rate-limited, 402 → payment/quota. In the fetch-based revision only
401 and 429 have dedicated classes; 402, like every other non-2xx status,
maps to the generic service-error class. -/
theorem error_mapping_deterministic (e : AxiosError) :
    ((e.code = some "ECONNABORTED" ∨ e.code = some "ETIMEDOUT") →
        mapAxiosError e = "Failed to optimize prompt. " ++
          "Request timed out. Please check your internet connection and try again.") ∧
    ((e.code = some "ENOTFOUND" ∨ e.code = some "ECONNREFUSED") →
        mapAxiosError e = "Failed to optimize prompt. " ++
          "Cannot connect to OpenAI API. Please check your internet connection.") ∧
    (hasTransportCode e = false → e.status = some 401 →
        mapAxiosError e = "Failed to optimize prompt. " ++
          "Authentication failed. Please check your OpenAI API key.") ∧
    (hasTransportCode e = false → e.status = some 429 →
        mapAxiosError e = "Failed to optimize prompt. " ++
          "Rate limit exceeded. Please try again later or upgrade your OpenAI plan.") ∧
    (hasTransportCode e = false → e.status = some 402 →
        mapAxiosError e = "Failed to optimize prompt. " ++
          "Payment required. Please add credits to your OpenAI account.") ∧
    (∀ dataErrorMsg statusText, mapFetchHttpError 401 dataErrorMsg statusText =
        "Invalid API key. Please check your OpenAI API key in settings.") ∧
    (∀ dataErrorMsg statusText, mapFetchHttpError 429 dataErrorMsg statusText =
        "Rate limit exceeded. Please try again later.") ∧
    (∀ status dataErrorMsg statusText, status ≠ 401 → status ≠ 429 →
        ∃ m, mapFetchHttpError status dataErrorMsg statusText =
          "OpenAI API error: " ++ m) := by
  refine ⟨?_, ?_, ?_, ?_, ?_, ?_, ?_, ?_⟩
  · rintro (h | h) <;> simp [mapAxiosError, axiosErrorDetail, h]
  · rintro (h | h) <;> simp [mapAxiosError, axiosErrorDetail, h]
  · intro hcode hstatus
    simp only [hasTransportCode, Bool.or_eq_false_iff] at hcode
    simp [mapAxiosError, axiosErrorDetail, hcode.1.1.1, hcode.1.1.2, hcode.1.2, hcode.2,
      hstatus]
  · intro hcode hstatus
    simp only [hasTransportCode, Bool.or_eq_false_iff] at hcode
    simp [mapAxiosError, axiosErrorDetail, hcode.1.1.1, hcode.1.1.2, hcode.1.2, hcode.2,
      hstatus]
  · intro hcode hstatus
    simp only [hasTransportCode, Bool.or_eq_false_iff] at hcode
    simp [mapAxiosError, axiosErrorDetail, hcode.1.1.1, hcode.1.1.2, hcode.1.2, hcode.2,
      hstatus]
  · intro dataErrorMsg statusText; simp [mapFetchHttpError]
  · intro dataErrorMsg statusText; simp [mapFetchHttpError]
  · intro status dataErrorMsg statusText h401 h429
    refine ⟨(match dataErrorMsg with
              | some m => if m == "" then statusText else m
              | none => statusText), ?_⟩
    unfold mapFetchHttpError
    rw [if_neg (by simp [h401]), if_neg (by simp [h429])]

/-- Witness for `error_mapping_deterministic`: a timed-out request and an
HTTP 401 response. -/
theorem error_mapping_deterministic_witness :
    mapAxiosError ⟨some "ETIMEDOUT", none, none, none⟩ = "Failed to optimize prompt. " ++
      "Request timed out. Please check your internet connection and try again." ∧
    mapAxiosError ⟨none, some 401, none, none⟩ = "Failed to optimize prompt. " ++
      "Authentication failed. Please check your OpenAI API key." :=
  ⟨(error_mapping_deterministic ⟨some "ETIMEDOUT", none, none, none⟩).1 (Or.inr rfl),
   (error_mapping_deterministic ⟨none, some 401, none, none⟩).2.2.1 (by decide) rfl⟩

/-- A hypothesis refuting `b = true` gives `b = false`. -/
theorem bool_eq_false {b : Bool} (h : ¬(b = true)) : b = false := by
  simpa using h

/-- The type-detection chain always lands in the six-value enumeration. -/
theorem detectType_mem (l : String) :
    detectType l ∈
      ["coding", "explanation", "creative", "analysis", "transformation", "general"] := by
  unfold detectType
  split_ifs <;> simp

/-- First-match-wins characterization of the type-detection chain: each label
is produced exactly when its keyword group matches and no earlier group
does. -/
theorem detectType_cases (l : String) :
    (detectType l = "coding" ↔
      (jsIncludes l "code" || jsIncludes l "program" || jsIncludes l "function") = true) ∧
    (detectType l = "explanation" ↔
      ((jsIncludes l "code" || jsIncludes l "program" || jsIncludes l "function") = false ∧
       (jsIncludes l "explain" || jsIncludes l "what is" || jsIncludes l "how does") = true)) ∧
    (detectType l = "creative" ↔
      ((jsIncludes l "code" || jsIncludes l "program" || jsIncludes l "function") = false ∧
       (jsIncludes l "explain" || jsIncludes l "what is" || jsIncludes l "how does") = false ∧
       (jsIncludes l "write" || jsIncludes l "create" || jsIncludes l "generate") = true)) ∧
    (detectType l = "analysis" ↔
      ((jsIncludes l "code" || jsIncludes l "program" || jsIncludes l "function") = false ∧
       (jsIncludes l "explain" || jsIncludes l "what is" || jsIncludes l "how does") = false ∧
       (jsIncludes l "write" || jsIncludes l "create" || jsIncludes l "generate") = false ∧
       (jsIncludes l "analyze" || jsIncludes l "compare" || jsIncludes l "evaluate") = true)) ∧
    (detectType l = "transformation" ↔
      ((jsIncludes l "code" || jsIncludes l "program" || jsIncludes l "function") = false ∧
       (jsIncludes l "explain" || jsIncludes l "what is" || jsIncludes l "how does") = false ∧
       (jsIncludes l "write" || jsIncludes l "create" || jsIncludes l "generate") = false ∧
       (jsIncludes l "analyze" || jsIncludes l "compare" || jsIncludes l "evaluate") = false ∧
       (jsIncludes l "translate" || jsIncludes l "convert") = true)) ∧
    (detectType l = "general" ↔
      ((jsIncludes l "code" || jsIncludes l "program" || jsIncludes l "function") = false ∧
       (jsIncludes l "explain" || jsIncludes l "what is" || jsIncludes l "how does") = false ∧
       (jsIncludes l "write" || jsIncludes l "create" || jsIncludes l "generate") = false ∧
       (jsIncludes l "analyze" || jsIncludes l "compare" || jsIncludes l "evaluate") = false ∧
       (jsIncludes l "translate" || jsIncludes l "convert") = false)) := by
  unfold detectType
  split_ifs with h1 h2 h3 h4 h5
  · exact ⟨iff_of_true rfl h1,
      iff_of_false (by decide) (fun h => absurd h1 (by simp [h.1])),
      iff_of_false (by decide) (fun h => absurd h1 (by simp [h.1])),
      iff_of_false (by decide) (fun h => absurd h1 (by simp [h.1])),
      iff_of_false (by decide) (fun h => absurd h1 (by simp [h.1])),
      iff_of_false (by decide) (fun h => absurd h1 (by simp [h.1]))⟩
  · exact ⟨iff_of_false (by decide) h1,
      iff_of_true rfl ⟨bool_eq_false h1, h2⟩,
      iff_of_false (by decide) (fun h => absurd h2 (by simp [h.2.1])),
      iff_of_false (by decide) (fun h => absurd h2 (by simp [h.2.1])),
      iff_of_false (by decide) (fun h => absurd h2 (by simp [h.2.1])),
      iff_of_false (by decide) (fun h => absurd h2 (by simp [h.2.1]))⟩
  · exact ⟨iff_of_false (by decide) h1,
      iff_of_false (by decide) (fun h => h2 h.2),
      iff_of_true rfl ⟨bool_eq_false h1, bool_eq_false h2, h3⟩,
      iff_of_false (by decide) (fun h => absurd h3 (by simp [h.2.2.1])),
      iff_of_false (by decide) (fun h => absurd h3 (by simp [h.2.2.1])),
      iff_of_false (by decide) (fun h => absurd h3 (by simp [h.2.2.1]))⟩
  · exact ⟨iff_of_false (by decide) h1,
      iff_of_false (by decide) (fun h => h2 h.2),
      iff_of_false (by decide) (fun h => h3 h.2.2),
      iff_of_true rfl ⟨bool_eq_false h1, bool_eq_false h2, bool_eq_false h3, h4⟩,
      iff_of_false (by decide) (fun h => absurd h4 (by simp [h.2.2.2.1])),
      iff_of_false (by decide) (fun h => absurd h4 (by simp [h.2.2.2.1]))⟩
  · exact ⟨iff_of_false (by decide) h1,
      iff_of_false (by decide) (fun h => h2 h.2),
      iff_of_false (by decide) (fun h => h3 h.2.2),
      iff_of_false (by decide) (fun h => h4 h.2.2.2),
      iff_of_true rfl ⟨bool_eq_false h1, bool_eq_false h2, bool_eq_false h3,
        bool_eq_false h4, h5⟩,
      iff_of_false (by decide) (fun h => absurd h5 (by simp [h.2.2.2.2]))⟩
  · exact ⟨iff_of_false (by decide) h1,
      iff_of_false (by decide) (fun h => h2 h.2),
      iff_of_false (by decide) (fun h => h3 h.2.2),
      iff_of_false (by decide) (fun h => h4 h.2.2.2),
      iff_of_false (by decide) (fun h => h5 h.2.2.2.2),
      iff_of_true rfl ⟨bool_eq_false h1, bool_eq_false h2, bool_eq_false h3,
        bool_eq_false h4, bool_eq_false h5⟩⟩

/-- Characterization of the complexity-detection chain. -/
theorem detectComplexity_cases (promptLength : Nat) (l : String) :
    (detectComplexity promptLength l = "complex" ↔
      (promptLength > 200 ∨ jsIncludes l "step" = true ∨ jsIncludes l "process" = true)) ∧
    (detectComplexity promptLength l = "medium" ↔
      (¬(promptLength > 200 ∨ jsIncludes l "step" = true ∨ jsIncludes l "process" = true) ∧
        promptLength > 100)) ∧
    (detectComplexity promptLength l = "simple" ↔
      (¬(promptLength > 200 ∨ jsIncludes l "step" = true ∨ jsIncludes l "process" = true) ∧
        ¬(promptLength > 100))) := by
  unfold detectComplexity
  by_cases h1 : (promptLength > 200 ∨ jsIncludes l "step" = true ∨
      jsIncludes l "process" = true)
  · rw [if_pos (by simp only [Bool.or_eq_true, decide_eq_true_eq]; tauto)]
    exact ⟨iff_of_true rfl h1,
      iff_of_false (by decide) (fun h => h.1 h1),
      iff_of_false (by decide) (fun h => h.1 h1)⟩
  · rw [if_neg (by simp only [Bool.or_eq_true, decide_eq_true_eq]; tauto)]
    by_cases h2 : promptLength > 100
    · rw [if_pos h2]
      exact ⟨iff_of_false (by decide) h1,
        iff_of_true rfl ⟨h1, h2⟩,
        iff_of_false (by decide) (fun h => h.2 h2)⟩
    · rw [if_neg h2]
      exact ⟨iff_of_false (by decide) h1,
        iff_of_false (by decide) (fun h => h2 h.2),
        iff_of_true rfl ⟨h1, h2⟩⟩

/-- C5: the classifier is a total function assigning exactly one type —
determined by testing the lower-cased input against the ordered keyword
groups with first-match-wins (coding, explanation, creative, analysis,
transformation; default `"general"`) — and exactly one complexity:
`"complex"` iff length exceeds 200 or the input contains `"step"` or
`"process"` (regardless of length), else `"medium"` iff length exceeds 100,
else `"simple"`. -/
theorem classifier_total_first_match (prompt : String) :
    (analyzePromptType prompt).type ∈
      ["coding", "explanation", "creative", "analysis", "transformation", "general"] ∧
    ((analyzePromptType prompt).type = "coding" ↔
      (jsIncludes (jsToLower prompt) "code" || jsIncludes (jsToLower prompt) "program" ||
        jsIncludes (jsToLower prompt) "function") = true) ∧
    ((analyzePromptType prompt).type = "explanation" ↔
      ((jsIncludes (jsToLower prompt) "code" || jsIncludes (jsToLower prompt) "program" ||
          jsIncludes (jsToLower prompt) "function") = false ∧
       (jsIncludes (jsToLower prompt) "explain" || jsIncludes (jsToLower prompt) "what is" ||
          jsIncludes (jsToLower prompt) "how does") = true)) ∧
    ((analyzePromptType prompt).type = "creative" ↔
      ((jsIncludes (jsToLower prompt) "code" || jsIncludes (jsToLower prompt) "program" ||
          jsIncludes (jsToLower prompt) "function") = false ∧
       (jsIncludes (jsToLower prompt) "explain" || jsIncludes (jsToLower prompt) "what is" ||
          jsIncludes (jsToLower prompt) "how does") = false ∧
       (jsIncludes (jsToLower prompt) "write" || jsIncludes (jsToLower prompt) "create" ||
          jsIncludes (jsToLower prompt) "generate") = true)) ∧
    ((analyzePromptType prompt).type = "analysis" ↔
      ((jsIncludes (jsToLower prompt) "code" || jsIncludes (jsToLower prompt) "program" ||
          jsIncludes (jsToLower prompt) "function") = false ∧
       (jsIncludes (jsToLower prompt) "explain" || jsIncludes (jsToLower prompt) "what is" ||
          jsIncludes (jsToLower prompt) "how does") = false ∧
       (jsIncludes (jsToLower prompt) "write" || jsIncludes (jsToLower prompt) "create" ||
          jsIncludes (jsToLower prompt) "generate") = false ∧
       (jsIncludes (jsToLower prompt) "analyze" || jsIncludes (jsToLower prompt) "compare" ||
          jsIncludes (jsToLower prompt) "evaluate") = true)) ∧
    ((analyzePromptType prompt).type = "transformation" ↔
      ((jsIncludes (jsToLower prompt) "code" || jsIncludes (jsToLower prompt) "program" ||
          jsIncludes (jsToLower prompt) "function") = false ∧
       (jsIncludes (jsToLower prompt) "explain" || jsIncludes (jsToLower prompt) "what is" ||
          jsIncludes (jsToLower prompt) "how does") = false ∧
       (jsIncludes (jsToLower prompt) "write" || jsIncludes (jsToLower prompt) "create" ||
          jsIncludes (jsToLower prompt) "generate") = false ∧
       (jsIncludes (jsToLower prompt) "analyze" || jsIncludes (jsToLower prompt) "compare" ||
          jsIncludes (jsToLower prompt) "evaluate") = false ∧
       (jsIncludes (jsToLower prompt) "translate" ||
          jsIncludes (jsToLower prompt) "convert") = true)) ∧
    ((analyzePromptType prompt).type = "general" ↔
      ((jsIncludes (jsToLower prompt) "code" || jsIncludes (jsToLower prompt) "program" ||
          jsIncludes (jsToLower prompt) "function") = false ∧
       (jsIncludes (jsToLower prompt) "explain" || jsIncludes (jsToLower prompt) "what is" ||
          jsIncludes (jsToLower prompt) "how does") = false ∧
       (jsIncludes (jsToLower prompt) "write" || jsIncludes (jsToLower prompt) "create" ||
          jsIncludes (jsToLower prompt) "generate") = false ∧
       (jsIncludes (jsToLower prompt) "analyze" || jsIncludes (jsToLower prompt) "compare" ||
          jsIncludes (jsToLower prompt) "evaluate") = false ∧
       (jsIncludes (jsToLower prompt) "translate" ||
          jsIncludes (jsToLower prompt) "convert") = false)) ∧
    ((analyzePromptType prompt).complexity = "complex" ↔
      (prompt.length > 200 ∨ jsIncludes (jsToLower prompt) "step" = true ∨
        jsIncludes (jsToLower prompt) "process" = true)) ∧
    ((analyzePromptType prompt).complexity = "medium" ↔
      (¬(prompt.length > 200 ∨ jsIncludes (jsToLower prompt) "step" = true ∨
          jsIncludes (jsToLower prompt) "process" = true) ∧ prompt.length > 100)) ∧
    ((analyzePromptType prompt).complexity = "simple" ↔
      (¬(prompt.length > 200 ∨ jsIncludes (jsToLower prompt) "step" = true ∨
          jsIncludes (jsToLower prompt) "process" = true) ∧ ¬(prompt.length > 100))) := by
  have ht := detectType_cases (jsToLower prompt)
  have hm := detectType_mem (jsToLower prompt)
  have hc := detectComplexity_cases prompt.length (jsToLower prompt)
  exact ⟨hm, ht.1, ht.2.1, ht.2.2.1, ht.2.2.2.1, ht.2.2.2.2.1, ht.2.2.2.2.2,
    hc.1, hc.2.1, hc.2.2⟩

/-- Rules of the technique-selection block, for any type/complexity pair. -/
theorem selectTechniquesFor_rules (type complexity : String) :
    "zero-shot" ∈ selectTechniquesFor type complexity ∧
    "role-definition" ∈ selectTechniquesFor type complexity ∧
    ("chain-of-thought" ∈ selectTechniquesFor type complexity ↔ complexity = "complex") ∧
    ("few-shot" ∈ selectTechniquesFor type complexity ↔
      (type = "coding" ∨ type = "creative")) ∧
    ("meta-prompting" ∈ selectTechniquesFor type complexity ↔
      (type = "analysis" ∨ type = "explanation")) ∧
    ("self-consistency" ∈ selectTechniquesFor type complexity ↔
      (complexity = "complex" ∧ (type = "analysis" ∨ type = "explanation"))) ∧
    (selectTechniquesFor type complexity).Nodup := by
  unfold selectTechniquesFor
  split_ifs <;> refine ⟨?_, ?_, ?_, ?_, ?_, ?_, ?_⟩ <;> first | decide | simp_all

/-- C6: for every input the classifier's technique list contains
`"zero-shot"`, and contains `"role-definition"` (unconditionally, so in
particular whenever the input lacks a role-setting phrase); it contains
`"chain-of-thought"` exactly when complexity is complex, `"few-shot"`
exactly when the type is coding or creative, `"meta-prompting"` exactly
when the type is analysis or explanation, and `"self-consistency"` exactly
when complexity is complex and the type is analysis or explanation; and the
list carries no duplicate names, so first-occurrence deduplication leaves
it unchanged. -/
theorem selected_techniques_rules (prompt : String) :
    "zero-shot" ∈ (analyzePromptType prompt).techniques ∧
    "role-definition" ∈ (analyzePromptType prompt).techniques ∧
    ("chain-of-thought" ∈ (analyzePromptType prompt).techniques ↔
      (analyzePromptType prompt).complexity = "complex") ∧
    ("few-shot" ∈ (analyzePromptType prompt).techniques ↔
      ((analyzePromptType prompt).type = "coding" ∨
        (analyzePromptType prompt).type = "creative")) ∧
    ("meta-prompting" ∈ (analyzePromptType prompt).techniques ↔
      ((analyzePromptType prompt).type = "analysis" ∨
        (analyzePromptType prompt).type = "explanation")) ∧
    ("self-consistency" ∈ (analyzePromptType prompt).techniques ↔
      ((analyzePromptType prompt).complexity = "complex" ∧
        ((analyzePromptType prompt).type = "analysis" ∨
          (analyzePromptType prompt).type = "explanation"))) ∧
    (analyzePromptType prompt).techniques.Nodup :=
  selectTechniquesFor_rules (detectType (jsToLower prompt))
    (detectComplexity prompt.length (jsToLower prompt))

/-- Name-deduplication keeps at most one entry per name: the kept entries
are exactly those standing at the first index carrying their name. -/
theorem dedupByName_names_nodup (selected : List Technique) :
    ((dedupByName selected).map Technique.name).Nodup := by
  unfold dedupByName
  have h1 : (selected.enum).Pairwise (fun a b => a.1 ≠ b.1) := by
    have h := List.nodup_enum_map_fst selected
    rwa [List.Nodup, List.pairwise_map] at h
  have h2 := List.Pairwise.filter
    (fun p => selected.findIdx? (fun t => t.name == p.2.name) == some p.1) h1
  have h3 : ((selected.enum.filter fun p =>
      selected.findIdx? (fun t => t.name == p.2.name) == some p.1)).Pairwise
        (fun a b => a.2.name ≠ b.2.name) := by
    refine List.Pairwise.imp_of_mem ?_ h2
    intro a b ha hb hne hnameeq
    obtain ⟨-, hpa⟩ := List.mem_filter.mp ha
    obtain ⟨-, hpb⟩ := List.mem_filter.mp hb
    rw [beq_iff_eq] at hpa hpb
    simp only [hnameeq] at hpa
    rw [hpa] at hpb
    exact hne (Option.some.inj hpb)
  rw [List.map_map, List.Nodup, List.pairwise_map]
  exact h3

/-- Every level of the post-filter yields a list with pairwise-distinct
names: the level filter runs after deduplication and cannot reintroduce
duplicates. -/
theorem selectOptimalTechniques_names_nodup (originalPrompt : String)
    (availableTechniques : List String) (optimizationLevel : String) (maxTechniques : Nat) :
    ((selectOptimalTechniques originalPrompt availableTechniques optimizationLevel
        maxTechniques).map Technique.name).Nodup := by
  unfold selectOptimalTechniques
  have hd := dedupByName_names_nodup (rawSelectedTechniques originalPrompt)
  split_ifs with h1 h2
  · exact List.Nodup.sublist
      (((List.take_sublist _ _).trans (List.filter_sublist _)).map _) hd
  · exact List.Nodup.sublist ((List.take_sublist _ _).map _) hd
  · exact List.Nodup.sublist ((List.take_sublist _ _).map _) hd

/-- C7: the optimization level is a post-filter applied after name
deduplication: `"conservative"` keeps only techniques from the fixed
allow-list and at most 2 of them; `"aggressive"` returns at most the
caller-supplied maximum; `"smart"` (the default branch) returns at most
`min maxTechniques 4`; and for every level the returned names are
duplicate-free, as the filter runs on the deduplicated list. -/
theorem optimization_level_post_filter (originalPrompt : String)
    (availableTechniques : List String) (maxTechniques : Nat) :
    (∀ t ∈ selectOptimalTechniques originalPrompt availableTechniques "conservative"
        maxTechniques, t.name ∈ conservativeAllowList) ∧
    (selectOptimalTechniques originalPrompt availableTechniques "conservative"
        maxTechniques).length ≤ 2 ∧
    (selectOptimalTechniques originalPrompt availableTechniques "aggressive"
        maxTechniques).length ≤ maxTechniques ∧
    (selectOptimalTechniques originalPrompt availableTechniques "smart"
        maxTechniques).length ≤ min maxTechniques 4 ∧
    (∀ level, ((selectOptimalTechniques originalPrompt availableTechniques level
        maxTechniques).map Technique.name).Nodup) := by
  refine ⟨?_, ?_, ?_, ?_,
    fun level => selectOptimalTechniques_names_nodup _ _ _ _⟩
  · intro t ht
    unfold selectOptimalTechniques at ht
    rw [if_pos (by decide)] at ht
    have ht2 := List.mem_of_mem_take ht
    have hc := (List.mem_filter.mp ht2).2
    simpa using hc
  · unfold selectOptimalTechniques
    rw [if_pos (by decide)]
    exact List.length_take_le _ _
  · unfold selectOptimalTechniques
    rw [if_neg (by decide), if_pos (by decide)]
    exact List.length_take_le _ _
  · unfold selectOptimalTechniques
    rw [if_neg (by decide), if_neg (by decide)]
    exact List.length_take_le _ _

/-- Witness for `optimization_level_post_filter`: on the prompt `"hi"` the
conservative result contains the zero-shot technique, whose name is in the
allow-list. -/
theorem optimization_level_post_filter_witness :
    (⟨"Zero-shot Prompting", "Provide clear, direct instructions without examples"⟩ :
        Technique).name ∈ conservativeAllowList ∧
    (selectOptimalTechniques "hi" [] "aggressive" 3).length ≤ 3 :=
  ⟨(optimization_level_post_filter "hi" [] 3).1 _ (by decide),
   (optimization_level_post_filter "hi" [] 3).2.2.1⟩

/-- C8: one optimization invocation is atomic with respect to the ledger:
whenever an error is presented the ledger is exactly what it was before the
invocation, and whenever a result is presented the ledger is exactly the old
ledger with the one new record appended (under the capacity rule). -/
theorem optimization_atomic (apiKey : Option String) (jsonParse : JsonParseFn)
    (net : NetResult) (now : Nat) (autoCopy : Bool) (text : String)
    (history : List OptimizationHistory) :
    (∀ msg, (optimizeText apiKey jsonParse net now autoCopy text history).presented =
        .errorMsg msg →
      (optimizeText apiKey jsonParse net now autoCopy text history).history = history) ∧
    (∀ optimized copied,
      (optimizeText apiKey jsonParse net now autoCopy text history).presented =
          .result optimized copied →
        (optimizeText apiKey jsonParse net now autoCopy text history).history =
          ledgerAppend history ⟨text, optimized, [], now, some 0⟩) := by
  by_cases hk : truthyStr apiKey
  · cases net with
    | err e =>
      refine ⟨fun msg h => ?_, fun optimized copied h => ?_⟩
      · simp [optimizeText, hk]
      · simp [optimizeText, hk] at h
    | ok content =>
      by_cases ht : truthyStr (some (interpretResponse jsonParse content))
      · refine ⟨fun msg h => ?_, fun optimized copied h => ?_⟩
        · simp [optimizeText, hk, mkOptimizationResult, ht] at h
        · simp only [optimizeText, hk, Bool.not_true, Bool.false_eq_true, if_false,
            mkOptimizationResult, ht, if_true, Presented.result.injEq] at h ⊢
          first
          | rfl
          | (rcases h with ⟨h1, h2⟩; rw [h1])
      · refine ⟨fun msg h => ?_, fun optimized copied h => ?_⟩
        · simp [optimizeText, hk, mkOptimizationResult, ht]
        · simp [optimizeText, hk, mkOptimizationResult, ht] at h
  · refine ⟨fun msg h => ?_, fun optimized copied h => ?_⟩
    · simp [optimizeText, hk]
    · simp [optimizeText, hk] at h

/-- Witness for `optimization_atomic`: a failing run leaves the ledger
empty, and a succeeding run appends exactly one record. -/
theorem optimization_atomic_witness :
    (optimizeText (some "k") (fun _ => none) (.err ⟨some "ETIMEDOUT", none, none, none⟩)
        0 true "t" []).history = [] ∧
    (optimizeText (some "k") (fun _ => none) (.ok "y") 0 true "t" []).history =
      ledgerAppend [] ⟨"t", "y", [], 0, some 0⟩ :=
  ⟨(optimization_atomic (some "k") (fun _ => none)
      (.err ⟨some "ETIMEDOUT", none, none, none⟩) 0 true "t" []).1 _ rfl,
   (optimization_atomic (some "k") (fun _ => none) (.ok "y") 0 true "t" []).2 "y" true rfl⟩

/-- C9: on the input `"Write a function to reverse a string"` the classifier
produces the single winning type `"coding"` (the coding keyword group is
tested before the creative one, and `"function"` matches), complexity
`"simple"`, and a technique list containing `"few-shot"` but not
`"self-consistency"`. -/
theorem reverse_string_scenario :
    (analyzePromptType "Write a function to reverse a string").type = "coding" ∧
    (analyzePromptType "Write a function to reverse a string").complexity = "simple" ∧
    "few-shot" ∈ (analyzePromptType "Write a function to reverse a string").techniques ∧
    "self-consistency" ∉
      (analyzePromptType "Write a function to reverse a string").techniques := by
  decide

/-- Membership in an appended ledger comes from the old ledger or is the new
record. -/
theorem mem_ledgerAppend {history : List OptimizationHistory}
    {record r : OptimizationHistory} (h : r ∈ ledgerAppend history record) :
    r ∈ history ∨ r = record := by
  unfold ledgerAppend at h
  by_cases hl : (history ++ [record]).length > MAX_HISTORY_SIZE
  · rw [if_pos hl] at h
    have h2 := List.mem_of_mem_drop h
    simpa using h2
  · rw [if_neg hl] at h
    simpa using h

/-- Any record in the ledger after one invocation was already there or
carries an empty technique list and score `0`. -/
theorem optimizeText_history_mem (apiKey : Option String) (jsonParse : JsonParseFn)
    (net : NetResult) (now : Nat) (autoCopy : Bool) (text : String)
    (history : List OptimizationHistory) (r : OptimizationHistory)
    (h : r ∈ (optimizeText apiKey jsonParse net now autoCopy text history).history) :
    r ∈ history ∨ (r.techniques = [] ∧ r.score = some 0) := by
  by_cases hk : truthyStr apiKey
  · cases net with
    | err e =>
      simp only [optimizeText, hk, Bool.not_true, Bool.false_eq_true, if_false] at h
      exact Or.inl h
    | ok content =>
      by_cases ht : truthyStr (some (interpretResponse jsonParse content))
      · simp only [optimizeText, hk, Bool.not_true, Bool.false_eq_true, if_false,
          mkOptimizationResult, ht, if_true] at h
        rcases mem_ledgerAppend h with h2 | h2
        · exact Or.inl h2
        · right
          rw [h2]
          exact ⟨rfl, rfl⟩
      · simp only [optimizeText, hk, Bool.not_true, Bool.false_eq_true, if_false,
          mkOptimizationResult, ht] at h
        exact Or.inl h
  · simp only [optimizeText, hk, Bool.not_true, if_true] at h
    exact Or.inl h

/-- Every record in a ledger reached by any sequence of operations from the
empty ledger has an empty technique list and score `0`. -/
theorem runOps_invariant (ops : List LedgerOp) :
    ∀ r ∈ runOps ops, r.techniques = [] ∧ r.score = some 0 := by
  suffices h : ∀ history : List OptimizationHistory,
      (∀ r ∈ history, r.techniques = [] ∧ r.score = some 0) →
      ∀ r ∈ ops.foldl applyOp history, r.techniques = [] ∧ r.score = some 0 by
    exact fun r hr => h [] (by simp) r hr
  induction ops with
  | nil => intro history hh; simpa using hh
  | cons op rest ih =>
    intro history hh
    rw [List.foldl_cons]
    refine ih (applyOp history op) ?_
    intro r hr
    cases op with
    | clear confirmed =>
      simp only [applyOp, clearHistory] at hr
      by_cases hc : (confirmed == some "Yes") = true
      · rw [if_pos hc] at hr; simp at hr
      · rw [if_neg hc] at hr; exact hh r hr
    | optimize apiKey jsonParse net now autoCopy text =>
      simp only [applyOp] at hr
      rcases optimizeText_history_mem apiKey jsonParse net now autoCopy text history r hr
        with h2 | h2
      · exact hh r h2
      · exact h2

/-- C10: every record ever appended to the History Ledger carries an empty
applied-techniques list and an improvement score of exactly `0`, after every
sequence of operations; consequently the history view renders every
record's score as `"N/A"`, because a score of `0` is falsy and treated as
absent. -/
theorem history_records_trivial (ops : List LedgerOp) (r : OptimizationHistory)
    (h : r ∈ runOps ops) :
    r.techniques = [] ∧ r.score = some 0 ∧
      ∀ toFixed1 : ℚ → String, renderScore toFixed1 r.score = "N/A" := by
  obtain ⟨h1, h2⟩ := runOps_invariant ops r h
  exact ⟨h1, h2, fun f => by simp [h2, renderScore, truthyNum]⟩

/-- Witness for `history_records_trivial`: the record produced by one
successful run. -/
theorem history_records_trivial_witness :
    (⟨"orig", "y", [], 0, some 0⟩ : OptimizationHistory).techniques = [] ∧
    renderScore (fun _ => "")
      ((⟨"orig", "y", [], 0, some 0⟩ : OptimizationHistory).score) = "N/A" :=
  have h := history_records_trivial
    [LedgerOp.optimize (some "k") (fun _ => none) (.ok "y") 0 true "orig"]
    ⟨"orig", "y", [], 0, some 0⟩ (by decide)
  ⟨h.1, h.2.2 _⟩

end Promptious

